import Mathlib

/-!
Verification development for the TARS host-monitoring backend.

The embedding models the real-time subscription/broadcast core of the
repository: the `ConnectionManager` of `src/api/websocket.py` (session
registry, push channel, background-task map), the per-connection dispatcher
loop of `websocket_endpoint`, and the collaborators `kill_process` and
`get_docker_containers` of `src/utils/linux_utils.py`.  Python dicts are
modelled as association lists with Python's replace-in-place / append
semantics, Python sets as duplicate-free lists, and the effects of the
external world (transport writes, subprocess outcomes) as explicit
environment parameters.
-/

namespace TARS

/-- Association-list model of a Python `dict` with string keys: lookup returns
the value of the first entry with the given key. -/
def dictLookup {α : Type} (k : String) : List (String × α) → Option α
  | [] => none
  | (k2, v) :: rest => if k2 = k then some v else dictLookup k rest

/-- Membership test, mirroring Python `k in d`. -/
def hasKey {α : Type} (k : String) (d : List (String × α)) : Bool :=
  (dictLookup k d).isSome

/-- Python `d[k] = v`: replaces the value in place when the key is present
(insertion order preserved), otherwise appends a new entry at the end. -/
def dictSet {α : Type} (k : String) (v : α) (d : List (String × α)) : List (String × α) :=
  if hasKey k d then d.map (fun p => (p.1, if p.1 = k then v else p.2))
  else d ++ [(k, v)]

/-- Python `del d[k]`, removing the entry for the key; in the source every
`del` is guarded by a membership check, and this removal is a no-op on an
absent key, so it models the guarded form exactly. -/
def dictErase {α : Type} (k : String) : List (String × α) → List (String × α)
  | [] => []
  | p :: rest => if p.1 = k then dictErase k rest else p :: dictErase k rest

/-- In-place mutation of the value stored at `k`, mirroring Python code that
mutates `d[k]` (such as `d[k].add(x)` on a set value). -/
def dictModify {α : Type} (k : String) (f : α → α) (d : List (String × α)) : List (String × α) :=
  d.map (fun p => (p.1, if p.1 = k then f p.2 else p.2))

/-- Python `set.add` on a set of strings, the set modelled as a duplicate-free
list: append only when absent. -/
def setAdd (t : String) (s : List String) : List String :=
  if t ∈ s then s else s ++ [t]

/-- Python `set.discard`: remove the element when present, never an error. -/
def setDiscard (t : String) : List String → List String
  | [] => []
  | x :: rest => if x = t then setDiscard t rest else x :: setDiscard t rest

/-- State of the `ConnectionManager` (src/api/websocket.py, lines 26-36).
`active_connections` maps a connection id to its websocket handle (modelled as
a numeric socket id), `subscriptions` maps a connection id to its set of
topics, `background_tasks` maps a connection id to the id of the most recently
recorded `asyncio.Task`.  The ghost field `cancelled_tasks` records every task
id on which `.cancel()` was called by the manager. -/
structure ManagerState where
  active_connections : List (String × Nat)
  subscriptions : List (String × List String)
  background_tasks : List (String × Nat)
  cancelled_tasks : List Nat
  deriving DecidableEq

/-- Manager with no connections, no subscriptions and no tasks. -/
def emptyManager : ManagerState :=
  { active_connections := [], subscriptions := [], background_tasks := [], cancelled_tasks := [] }

/-- `ConnectionManager.connect` (websocket.py lines 38-42): accept the socket,
store the channel under the key, and reset the key's subscription set to the
empty set.  `background_tasks` is not touched. -/
def connect (m : ManagerState) (socket : Nat) (connection_id : String) : ManagerState :=
  { m with
    active_connections := dictSet connection_id socket m.active_connections,
    subscriptions := dictSet connection_id [] m.subscriptions }

/-- `ConnectionManager.disconnect` (websocket.py lines 44-52): drop the
channel, drop the subscription set, and when a background task is recorded for
the key, call `.cancel()` on it and drop the record. -/
def disconnect (m : ManagerState) (connection_id : String) : ManagerState :=
  { active_connections := dictErase connection_id m.active_connections,
    subscriptions := dictErase connection_id m.subscriptions,
    background_tasks := dictErase connection_id m.background_tasks,
    cancelled_tasks :=
      match dictLookup connection_id m.background_tasks with
      | some t => m.cancelled_tasks ++ [t]
      | none => m.cancelled_tasks }

/-- `ConnectionManager.subscribe` (websocket.py lines 62-65): only when the
key is registered in `subscriptions`, add the topic to its set. -/
def subscribe (m : ManagerState) (connection_id topic : String) : ManagerState :=
  if hasKey connection_id m.subscriptions then
    { m with subscriptions := dictModify connection_id (setAdd topic) m.subscriptions }
  else m

/-- `ConnectionManager.unsubscribe` (websocket.py lines 67-70): only when the
key is registered in `subscriptions`, discard the topic from its set. -/
def unsubscribe (m : ManagerState) (connection_id topic : String) : ManagerState :=
  if hasKey connection_id m.subscriptions then
    { m with subscriptions := dictModify connection_id (setDiscard topic) m.subscriptions }
  else m

/-- Subscription set currently stored for a key (empty when absent). -/
def subsOf (m : ManagerState) (c : String) : List String :=
  (dictLookup c m.subscriptions).getD []

/-- Outcome of the psutil interactions performed by `kill_process`
(linux_utils.py lines 145-164): which exception path, if any, the call takes. -/
inductive KillOutcome where
  | terminatedInTime
  | timedOutThenKilled
  | noSuchProcess
  | accessDenied
  | otherFailure (msg : String)
  deriving DecidableEq

/-- `kill_process` (linux_utils.py lines 145-164).  Terminate, wait up to five
seconds, force-kill on wait timeout, then `return True`; `psutil.NoSuchProcess`,
`psutil.AccessDenied` and any other exception are re-raised as `Exception`
with the message shown.  There is no path returning `False`. -/
def kill_process (o : KillOutcome) : Except String Bool :=
  match o with
  | KillOutcome.terminatedInTime => Except.ok true
  | KillOutcome.timedOutThenKilled => Except.ok true
  | KillOutcome.noSuchProcess => Except.error "Process not found"
  | KillOutcome.accessDenied => Except.error "Permission denied to kill process"
  | KillOutcome.otherFailure m => Except.error ("Failed to kill process: " ++ m)

/-- Result of one `subprocess.run` invocation: the binary was missing, the
call timed out, or it finished with an exit code, stdout and stderr. -/
inductive CmdResult where
  | fileNotFound
  | timeout
  | finished (returncode : Int) (stdout stderr : String)
  deriving DecidableEq

/-- Outcomes of the two docker subprocess calls made while listing
containers: `docker --version` and `docker ps -a --format ...`. -/
structure DockerEnv where
  version_check : CmdResult
  ps_all : CmdResult
  deriving DecidableEq

/-- Substring test, mirroring Python `needle in hay` on strings. -/
def strContains (hay needle : String) : Bool :=
  (List.range (hay.toList.length + 1)).any
    (fun i => needle.toList.isPrefixOf (hay.toList.drop i))

/-- Container record produced by the first (shadowed) `get_docker_containers`. -/
structure ContainerEntry where
  id : String
  name : String
  image : String
  status : String
  deriving DecidableEq

/-- Container record produced by the second (effective) `get_docker_containers`. -/
structure ContainerEntryV2 where
  id : String
  name : String
  image : String
  status : String
  ports : String
  full_status : String
  deriving DecidableEq

/-- Line parsing of the first `get_docker_containers` (linux_utils.py lines
191-210): split stripped stdout on newlines, keep non-blank lines, split each
line on tabs, keep lines with at least four fields, and map the docker status
text to `running` when it contains `Up`, else `stopped`. -/
def parseContainersV1 (stdout : String) : List ContainerEntry :=
  ((stdout.trim.splitOn "\n").filter (fun line => !(line.trim.isEmpty))).filterMap
    (fun line =>
      let parts := line.splitOn "\t"
      if parts.length >= 4 then
        some { id := parts.getD 0 "", name := parts.getD 1 "", image := parts.getD 2 "",
               status := if strContains (parts.getD 3 "") "Up" then "running" else "stopped" }
      else none)

/-- Health-status classification of the second `get_docker_containers`
(linux_utils.py lines 331-343).  Note the source checks the substring
`healthy` before `unhealthy`, exactly as written. -/
def healthStatusOf (status : String) : String :=
  if strContains status "Up" then
    if strContains status "healthy" then "healthy"
    else if strContains status "unhealthy" then "unhealthy"
    else "running"
  else if strContains status "Exited" then "stopped"
  else if strContains status "Created" then "created"
  else "unknown"

/-- Line parsing of the second `get_docker_containers` (linux_utils.py lines
318-352): five tab-separated fields, `ports` defaulting to the empty string. -/
def parseContainersV2 (stdout : String) : List ContainerEntryV2 :=
  ((stdout.trim.splitOn "\n").filter (fun line => !(line.trim.isEmpty))).filterMap
    (fun line =>
      let parts := line.splitOn "\t"
      if parts.length >= 4 then
        some { id := parts.getD 0 "", name := parts.getD 1 "", image := parts.getD 2 "",
               status := healthStatusOf (parts.getD 3 ""),
               ports := if parts.length > 4 then parts.getD 4 "" else "",
               full_status := parts.getD 3 "" }
      else none)

/-- First definition of `get_docker_containers` (linux_utils.py lines
167-217).  A missing binary or timing-out `docker --version` returns `[]`;
a non-zero `docker ps` exit returns `[]` whether or not the stderr mentions
the daemon (the explicit daemon check returns `[]`, and the `raise` for other
stderr is caught by the function's own final `except Exception` which also
returns `[]`); a `docker ps` timeout raises.  This definition is shadowed at
module level by the second definition below and is therefore dead code. -/
def get_docker_containers_shadowed (env : DockerEnv) : Except String (List ContainerEntry) :=
  match env.version_check with
  | CmdResult.fileNotFound => Except.ok []
  | CmdResult.timeout => Except.ok []
  | CmdResult.finished _ _ _ =>
    match env.ps_all with
    | CmdResult.fileNotFound => Except.ok []
    | CmdResult.timeout => Except.error "Docker command timed out"
    | CmdResult.finished rc out err =>
      if rc ≠ 0 then
        if strContains err "Cannot connect to the Docker daemon" then Except.ok []
        else Except.ok []
      else Except.ok (parseContainersV1 out)

/-- Second definition of `get_docker_containers` (linux_utils.py lines
304-360), the one bound to the module-level name and hence the one imported
by websocket.py.  There is no binary availability check: a missing binary
raises `Docker command not found`, a timeout raises `Docker command timed
out`, and a non-zero exit raises the wrapped `Failed to get containers`
message. -/
def get_docker_containers (env : DockerEnv) : Except String (List ContainerEntryV2) :=
  match env.ps_all with
  | CmdResult.fileNotFound => Except.error "Docker command not found"
  | CmdResult.timeout => Except.error "Docker command timed out"
  | CmdResult.finished rc out err =>
    if rc ≠ 0 then
      Except.error ("Failed to get containers: Docker ps command failed: " ++ err)
    else Except.ok (parseContainersV2 out)

/-- Server-to-client messages built by websocket.py, one constructor per
`type` tag that the source ever sends. -/
inductive PushMsg where
  | system_info (data : String)
  | metrics (data : String)
  | processes_data (data : String)
  | process_kill_result (pid : Option Nat) (success : Bool) (message : String)
  | containers_data (data : List ContainerEntryV2)
  | container_action_result (container_id action status message : String)
  | container_logs (container_id logs : String) (tail : Nat) (follow : Bool)
  | container_logs_error (container_id err : String)
  | network_stats (data : String)
  | errorReply (message : String)
  deriving DecidableEq

/-- What happened to one `send_personal_message` call: the key was not
registered so the message was silently dropped, the transport write
succeeded, or the transport write raised. -/
inductive SendOutcome where
  | dropped
  | delivered
  | failed
  deriving DecidableEq

/-- Log entry for one `send_personal_message` call. -/
structure SendEvent where
  conn : String
  msg : PushMsg
  outcome : SendOutcome
  deriving DecidableEq

/-- Behaviour of the external world: results of the collaborator calls made
by the dispatcher (each named after the source function whose outcome it
supplies) and the success of each transport write. -/
structure Env where
  system_info : Except String String
  metrics : Except String String
  processes : Nat → Except String String
  kill_outcome : Option Nat → KillOutcome
  docker : DockerEnv
  exec_action : String → String → Except String String
  get_logs : String → Nat → Except String String
  network_stats : Except String String
  write_ok : Nat → PushMsg → Bool

/-- `ConnectionManager.send_personal_message` (websocket.py lines 54-60):
absent key means nothing happens; a failed transport write is caught and
turned into `disconnect`.  The function never raises, so its model is total;
along with the resulting state it reports the event describing the call. -/
def send_personal_message (env : Env) (m : ManagerState) (message : PushMsg)
    (connection_id : String) : ManagerState × List SendEvent :=
  match dictLookup connection_id m.active_connections with
  | none => (m, [{ conn := connection_id, msg := message, outcome := SendOutcome.dropped }])
  | some sock =>
    if env.write_ok sock message then
      (m, [{ conn := connection_id, msg := message, outcome := SendOutcome.delivered }])
    else
      (disconnect m connection_id,
       [{ conn := connection_id, msg := message, outcome := SendOutcome.failed }])

/-- Python `str.capitalize`: first character upper-cased, the rest
lower-cased. -/
def pyCapitalize (s : String) : String :=
  match s.toList with
  | [] => ""
  | c :: rest => String.mk (c.toUpper :: rest.map Char.toLower)

/-- `ConnectionManager.handle_container_action` (websocket.py lines 72-100):
push the `in_progress` message, run `execute_container_action` (outcome given
by `env.exec_action`), then push exactly one terminal message — `success`
with the collaborator's message, or `error` with the exception text. -/
def handle_container_action (env : Env) (m : ManagerState) (connection_id container_id action : String) :
    ManagerState × List SendEvent :=
  let s1 := send_personal_message env m
    (PushMsg.container_action_result container_id action "in_progress"
      (pyCapitalize action ++ " requested...")) connection_id
  match env.exec_action container_id action with
  | Except.ok result_msg =>
    let s2 := send_personal_message env s1.1
      (PushMsg.container_action_result container_id action "success" result_msg) connection_id
    (s2.1, s1.2 ++ s2.2)
  | Except.error e =>
    let s2 := send_personal_message env s1.1
      (PushMsg.container_action_result container_id action "error" e) connection_id
    (s2.1, s1.2 ++ s2.2)

/-- `ConnectionManager.stream_container_logs` (websocket.py lines 102-118):
fetch the logs (outcome given by `env.get_logs`) and push one message —
`container_logs` with `follow` hard-coded to `False`, or
`container_logs_error` with the exception text. -/
def stream_container_logs (env : Env) (m : ManagerState) (connection_id container_id : String)
    (tail : Nat) (follow : Bool) : ManagerState × List SendEvent :=
  match env.get_logs container_id tail with
  | Except.ok logs =>
    send_personal_message env m
      (PushMsg.container_logs container_id logs tail false) connection_id
  | Except.error e =>
    send_personal_message env m
      (PushMsg.container_logs_error container_id e) connection_id

/-- Decoded client message, one constructor per `type` tag handled by the
dispatcher of `websocket_endpoint`; `other` is any unrecognized tag.
Optional fields mirror `message.get(...)` possibly returning `None`. -/
inductive ClientMsg where
  | subscribeMsg (topic : Option String)
  | unsubscribeMsg (topic : Option String)
  | getSystemInfo
  | getMetrics
  | getProcesses (limit : Nat)
  | killProcess (pid : Option Nat)
  | getContainers
  | containerAction (container_id action : Option String)
  | getContainerLogs (container_id : Option String) (tail : Nat) (follow : Bool)
  | getNetworkStats
  | other
  deriving DecidableEq

/-- One inbound frame: either text that fails `json.loads` (malformed) or a
decoded message. -/
inductive Inbound where
  | malformed
  | msg (m : ClientMsg)
  deriving DecidableEq

/-- Kind and parameters of a spawned background task. -/
inductive TaskKind where
  | action (container_id act : String)
  | logs (container_id : String) (tail : Nat) (follow : Bool)
  deriving DecidableEq

/-- Record of one `asyncio.create_task` call: task id, owning connection and
the coroutine's kind. -/
structure TaskSpawn where
  id : Nat
  conn : String
  kind : TaskKind
  deriving DecidableEq

/-- Whole-session state threaded through the receive loop: the manager, the
log of all `send_personal_message` calls so far, the spawned-but-not-yet-run
background tasks, and a fresh task-id counter. -/
structure World where
  mgr : ManagerState
  events : List SendEvent
  pending : List TaskSpawn
  next_task : Nat
  deriving DecidableEq

/-- Truthiness of an optional string, mirroring Python `if value:` on the
result of `message.get(...)`. -/
def truthy : Option String → Bool
  | none => false
  | some s => !(s.isEmpty)

/-- Python rendering of the pid in the kill-result text (`None` when the
client sent no pid). -/
def pidToStr : Option Nat → String
  | some n => toString n
  | none => "None"

/-- Text of the `process_kill_result` message (websocket.py line 204):
`f"Process {pid} {'killed' if success else 'failed to kill'}"`. -/
def killMsgText (pid : Option Nat) (success : Bool) : String :=
  "Process " ++ pidToStr pid ++ (if success then " killed" else " failed to kill")

/-- Send a message on the session's channel and append the call's event to
the world log. -/
def emit (env : Env) (w : World) (message : PushMsg) (conn : String) : World :=
  let r := send_personal_message env w.mgr message conn
  { w with mgr := r.1, events := w.events ++ r.2 }

/-- Spawn a background task: record it in `background_tasks` under the
connection id (plain dict assignment — the previous handle, if any, is
overwritten and NOT cancelled), and queue the coroutine. -/
def spawnTask (w : World) (conn : String) (kind : TaskKind) : World :=
  { w with
    mgr := { w.mgr with background_tasks := dictSet conn w.next_task w.mgr.background_tasks },
    pending := w.pending ++ [{ id := w.next_task, conn := conn, kind := kind }],
    next_task := w.next_task + 1 }

/-- One decoded message through the dispatcher of `websocket_endpoint`
(websocket.py lines 141-299).  Synchronous branches call their collaborator
(outcome from `env`), pushing the reply or the corresponding error message;
`container_action` and `get_container_logs` spawn a background task;
unrecognized types are ignored. -/
def stepMsg (env : Env) (w : World) (conn : String) : ClientMsg → World
  | ClientMsg.subscribeMsg topic? =>
    match topic? with
    | some topic =>
      if !topic.isEmpty then { w with mgr := subscribe w.mgr conn topic } else w
    | none => w
  | ClientMsg.unsubscribeMsg topic? =>
    match topic? with
    | some topic =>
      if !topic.isEmpty then { w with mgr := unsubscribe w.mgr conn topic } else w
    | none => w
  | ClientMsg.getSystemInfo =>
    match env.system_info with
    | Except.ok d => emit env w (PushMsg.system_info d) conn
    | Except.error e => emit env w (PushMsg.errorReply ("Failed to fetch system info: " ++ e)) conn
  | ClientMsg.getMetrics =>
    match env.metrics with
    | Except.ok d => emit env w (PushMsg.metrics d) conn
    | Except.error e => emit env w (PushMsg.errorReply ("Failed to fetch metrics: " ++ e)) conn
  | ClientMsg.getProcesses limit =>
    match env.processes limit with
    | Except.ok d => emit env w (PushMsg.processes_data d) conn
    | Except.error e => emit env w (PushMsg.errorReply ("Failed to fetch processes: " ++ e)) conn
  | ClientMsg.killProcess pid? =>
    match kill_process (env.kill_outcome pid?) with
    | Except.ok success =>
      emit env w (PushMsg.process_kill_result pid? success (killMsgText pid? success)) conn
    | Except.error e =>
      emit env w (PushMsg.errorReply ("Failed to kill process: " ++ e)) conn
  | ClientMsg.getContainers =>
    match get_docker_containers env.docker with
    | Except.ok cs => emit env w (PushMsg.containers_data cs) conn
    | Except.error e => emit env w (PushMsg.errorReply ("Failed to fetch containers: " ++ e)) conn
  | ClientMsg.containerAction cid? act? =>
    if truthy cid? && truthy act? then
      spawnTask w conn (TaskKind.action (cid?.getD "") (act?.getD ""))
    else w
  | ClientMsg.getContainerLogs cid? tail follow =>
    if truthy cid? then
      spawnTask w conn (TaskKind.logs (cid?.getD "") tail follow)
    else w
  | ClientMsg.getNetworkStats =>
    match env.network_stats with
    | Except.ok d => emit env w (PushMsg.network_stats d) conn
    | Except.error e => emit env w (PushMsg.errorReply ("Failed to fetch network stats: " ++ e)) conn
  | ClientMsg.other => w

/-- One inbound frame through the receive loop.  A decoded message is
dispatched and the loop continues.  A malformed payload raises out of
`json.loads`, is caught only by the outer handler of `websocket_endpoint`
(lines 303-305), which disconnects the session and ends the loop; no reply is
sent.  The returned flag says whether the loop continues. -/
def stepInbound (env : Env) (w : World) (conn : String) : Inbound → World × Bool
  | Inbound.malformed => ({ w with mgr := disconnect w.mgr conn }, false)
  | Inbound.msg m => (stepMsg env w conn m, true)

/-- The receive loop of `websocket_endpoint`: process frames in order until
the input ends or a frame terminates the loop. -/
def runLoop (env : Env) (w : World) (conn : String) : List Inbound → World
  | [] => w
  | i :: rest =>
    let r := stepInbound env w conn i
    if r.2 then runLoop env r.1 conn rest else r.1

/-- Run one spawned background coroutine to completion. -/
def runTask (env : Env) (m : ManagerState) (t : TaskSpawn) : ManagerState × List SendEvent :=
  match t.kind with
  | TaskKind.action cid act => handle_container_action env m t.conn cid act
  | TaskKind.logs cid tail follow => stream_container_logs env m t.conn cid tail follow

/-- Run the spawned tasks in spawn order; a task whose id has been cancelled
produces nothing (asyncio delivers `CancelledError` before its body runs in
this schedule). -/
def runTasks (env : Env) (m : ManagerState) : List TaskSpawn → ManagerState × List SendEvent
  | [] => (m, [])
  | t :: rest =>
    if t.id ∈ m.cancelled_tasks then runTasks env m rest
    else
      let r1 := runTask env m t
      let r2 := runTasks env r1.1 rest
      (r2.1, r1.2 ++ r2.2)

/-- One admissible complete schedule: the receive loop consumes all inbound
frames, then every spawned and uncancelled background task runs to
completion.  This is the schedule in which every background request arrives
before the previously spawned task has completed. -/
def fullRun (env : Env) (w : World) (conn : String) (inputs : List Inbound) : World :=
  let w1 := runLoop env w conn inputs
  let r := runTasks env w1.mgr w1.pending
  { w1 with mgr := r.1, events := w1.events ++ r.2, pending := [] }

/-- Environment in which every collaborator call succeeds and every transport
write succeeds. -/
def envAllOk : Env :=
  { system_info := Except.ok "sysinfo",
    metrics := Except.ok "metricsdata",
    processes := fun _ => Except.ok "procs",
    kill_outcome := fun _ => KillOutcome.terminatedInTime,
    docker := { version_check := CmdResult.finished 0 "Docker version 24.0" "",
                ps_all := CmdResult.finished 0 "" "" },
    exec_action := fun _ _ => Except.ok "Container started successfully",
    get_logs := fun _ _ => Except.ok "log lines",
    network_stats := Except.ok "netdata",
    write_ok := fun _ _ => true }

/-- Environment identical to `envAllOk` except that every transport write
fails. -/
def envWriteFail : Env :=
  { envAllOk with write_ok := fun _ _ => false }

/-- World of a fresh session `c1` connected on socket 1. -/
def w0 : World :=
  { mgr := connect emptyManager 1 "c1", events := [], pending := [], next_task := 0 }

/-- World with no session at all. -/
def wEmpty : World :=
  { mgr := emptyManager, events := [], pending := [], next_task := 0 }

/-- Manager of a fresh session `c1` connected on socket 1. -/
def mgrW : ManagerState := connect emptyManager 1 "c1"

/-- Manager of session `c1` that also has background task 7 recorded. -/
def mgrT : ManagerState :=
  { mgrW with background_tasks := dictSet "c1" 7 mgrW.background_tasks }

/-- Does this event carry a terminal (`success` or `error`)
`container_action_result` for the given session? -/
def isTerminalActionResult (conn : String) (e : SendEvent) : Bool :=
  e.conn == conn &&
    (match e.msg with
     | PushMsg.container_action_result _ _ st _ => st == "success" || st == "error"
     | _ => false)

/-- Number of terminal container-action messages sent to a session. -/
def countTerminal (conn : String) (es : List SendEvent) : Nat :=
  (es.filter (isTerminalActionResult conn)).length

/-- Membership in a cons cell reduces to a head check plus membership in the
tail. -/
theorem hasKey_cons {α : Type} (k : String) (p : String × α) (d : List (String × α)) :
    hasKey k (p :: d) = if p.1 = k then true else hasKey k d := by
  by_cases hp : p.1 = k <;> simp [hasKey, dictLookup, hp]

/-- Replacing in place hits the first entry for the key. -/
theorem dictLookup_map_set {α : Type} (k : String) (v : α) :
    ∀ d : List (String × α), hasKey k d = true →
      dictLookup k (d.map (fun p => (p.1, if p.1 = k then v else p.2))) = some v := by
  intro d
  induction d with
  | nil => intro h; simp [hasKey, dictLookup] at h
  | cons p rest ih =>
    obtain ⟨a, b⟩ := p
    intro h
    by_cases hp : a = k
    · simp [dictLookup, hp]
    · simp only [hasKey_cons] at h
      simp [hp] at h
      simp [dictLookup, hp]
      exact ih h

/-- Appending a fresh entry makes it the one found by lookup. -/
theorem dictLookup_append_absent {α : Type} (k : String) (v : α) :
    ∀ d : List (String × α), hasKey k d = false →
      dictLookup k (d ++ [(k, v)]) = some v := by
  intro d
  induction d with
  | nil => intro _; simp [dictLookup]
  | cons p rest ih =>
    obtain ⟨a, b⟩ := p
    intro h
    simp only [hasKey_cons] at h
    by_cases hp : a = k
    · simp [hp] at h
    · simp [hp] at h
      simp [dictLookup, hp]
      exact ih h

/-- Lookup after Python dict assignment finds the assigned value. -/
theorem dictLookup_dictSet_self {α : Type} (k : String) (v : α) (d : List (String × α)) :
    dictLookup k (dictSet k v d) = some v := by
  unfold dictSet
  by_cases h : hasKey k d = true
  · rw [if_pos h]; exact dictLookup_map_set k v d h
  · rw [if_neg h]
    exact dictLookup_append_absent k v d (by revert h; cases hasKey k d <;> simp)

/-- Lookup of a different key is unaffected by an in-place replacement. -/
theorem dictLookup_map_set_ne {α : Type} (k k2 : String) (v : α) (hk : k ≠ k2) :
    ∀ d : List (String × α),
      dictLookup k2 (d.map (fun p => (p.1, if p.1 = k then v else p.2))) = dictLookup k2 d := by
  intro d
  induction d with
  | nil => rfl
  | cons p rest ih =>
    obtain ⟨a, b⟩ := p
    by_cases hq : a = k2
    · subst hq
      have hak : ¬(a = k) := fun h => hk h.symm
      simp [dictLookup, hak]
    · simp [dictLookup, hq]
      exact ih

/-- Lookup of a different key is unaffected by appending a fresh entry. -/
theorem dictLookup_append_ne {α : Type} (k k2 : String) (v : α) (hk : k ≠ k2) :
    ∀ d : List (String × α), dictLookup k2 (d ++ [(k, v)]) = dictLookup k2 d := by
  intro d
  induction d with
  | nil => simp [dictLookup, hk]
  | cons p rest ih =>
    obtain ⟨a, b⟩ := p
    by_cases hq : a = k2
    · simp [dictLookup, hq]
    · simp [dictLookup, hq]; exact ih

/-- Lookup of a different key is unaffected by Python dict assignment. -/
theorem dictLookup_dictSet_ne {α : Type} (k k2 : String) (v : α) (d : List (String × α))
    (hk : k ≠ k2) : dictLookup k2 (dictSet k v d) = dictLookup k2 d := by
  unfold dictSet
  by_cases h : hasKey k d = true
  · rw [if_pos h]; exact dictLookup_map_set_ne k k2 v hk d
  · rw [if_neg h]; exact dictLookup_append_ne k k2 v hk d

/-- Key membership after Python dict assignment. -/
theorem hasKey_dictSet {α : Type} (k k2 : String) (v : α) (d : List (String × α)) :
    hasKey k2 (dictSet k v d) = if k = k2 then true else hasKey k2 d := by
  by_cases hk : k = k2
  · subst hk
    simp [hasKey, dictLookup_dictSet_self]
  · simp [hasKey, dictLookup_dictSet_ne k k2 v d hk, hk]

/-- Lookup of the erased key yields nothing. -/
theorem dictLookup_dictErase_self {α : Type} (k : String) (d : List (String × α)) :
    dictLookup k (dictErase k d) = none := by
  induction d with
  | nil => rfl
  | cons p rest ih =>
    obtain ⟨a, b⟩ := p
    by_cases hp : a = k
    · simp [dictErase, hp]
      exact ih
    · simp [dictErase, hp, dictLookup]
      exact ih

/-- Lookup of a different key is unaffected by erasure. -/
theorem dictLookup_dictErase_ne {α : Type} (k k2 : String) (d : List (String × α))
    (hk : k ≠ k2) : dictLookup k2 (dictErase k d) = dictLookup k2 d := by
  induction d with
  | nil => rfl
  | cons p rest ih =>
    obtain ⟨a, b⟩ := p
    by_cases hp : a = k
    · subst hp
      simp [dictErase, dictLookup, hk]
      exact ih
    · simp [dictErase, hp, dictLookup]
      by_cases hq : a = k2
      · simp [hq]
      · simp [hq]; exact ih

/-- Key membership after erasure. -/
theorem hasKey_dictErase {α : Type} (k k2 : String) (d : List (String × α)) :
    hasKey k2 (dictErase k d) = if k = k2 then false else hasKey k2 d := by
  by_cases hk : k = k2
  · subst hk
    simp [hasKey, dictLookup_dictErase_self]
  · simp [hasKey, dictLookup_dictErase_ne k k2 d hk, hk]

/-- Lookup of the modified key sees the modification. -/
theorem dictLookup_dictModify_self {α : Type} (k : String) (f : α → α) (d : List (String × α)) :
    dictLookup k (dictModify k f d) = (dictLookup k d).map f := by
  induction d with
  | nil => rfl
  | cons p rest ih =>
    obtain ⟨a, b⟩ := p
    simp only [dictModify, List.map_cons] at ih ⊢
    by_cases hp : a = k
    · simp [dictLookup, hp]
    · simp [dictLookup, hp]
      exact ih

/-- Lookup of a different key is unaffected by modification. -/
theorem dictLookup_dictModify_ne {α : Type} (k k2 : String) (f : α → α) (d : List (String × α))
    (hk : k ≠ k2) : dictLookup k2 (dictModify k f d) = dictLookup k2 d := by
  induction d with
  | nil => rfl
  | cons p rest ih =>
    obtain ⟨a, b⟩ := p
    simp only [dictModify, List.map_cons] at ih ⊢
    by_cases hq : a = k2
    · subst hq
      have hak : ¬(a = k) := fun h => hk h.symm
      simp [dictLookup, hak]
    · simp [dictLookup, hq]
      exact ih

/-- Modification never changes which keys are present. -/
theorem hasKey_dictModify {α : Type} (k k2 : String) (f : α → α) (d : List (String × α)) :
    hasKey k2 (dictModify k f d) = hasKey k2 d := by
  by_cases hk : k = k2
  · subst hk
    simp [hasKey, dictLookup_dictModify_self]
  · simp [hasKey, dictLookup_dictModify_ne k k2 f d hk]

/-- A `false` membership fact rephrased as a `none` lookup. -/
theorem dictLookup_eq_none_of_not_hasKey {α : Type} (k : String) (d : List (String × α))
    (h : hasKey k d = false) : dictLookup k d = none := by
  revert h; unfold hasKey; cases dictLookup k d <;> simp

/-- Claim C3: sending to a key that is not registered (never registered, or
registered then unregistered) is a no-op — no exception, nothing delivered,
and the registry state is unchanged. -/
theorem C3_send_absent_noop (env : Env) (m : ManagerState) (message : PushMsg) (c : String)
    (h : hasKey c m.active_connections = false) :
    send_personal_message env m message c
      = (m, [{ conn := c, msg := message, outcome := SendOutcome.dropped }]) := by
  unfold send_personal_message
  rw [dictLookup_eq_none_of_not_hasKey c m.active_connections h]

/-- Witness for C3 at the never-registered key `ghost` of the empty manager. -/
theorem C3_send_absent_noop_witness :
    hasKey "ghost" emptyManager.active_connections = false
  ∧ send_personal_message envAllOk emptyManager (PushMsg.errorReply "hi") "ghost"
      = (emptyManager,
         [{ conn := "ghost", msg := PushMsg.errorReply "hi", outcome := SendOutcome.dropped }]) :=
  ⟨rfl, C3_send_absent_noop envAllOk emptyManager (PushMsg.errorReply "hi") "ghost" rfl⟩

/-- Claim C4: a failed transport write inside `send_personal_message` is
treated as a disconnect — the key's channel, subscription set and background
task record are removed, the recorded task is cancelled, and the failure does
not propagate (the send call returns normally with the disconnected state). -/
theorem C4_send_failure_teardown (env : Env) (m : ManagerState) (message : PushMsg)
    (c : String) (sock : Nat)
    (hreg : dictLookup c m.active_connections = some sock)
    (hfail : env.write_ok sock message = false) :
    send_personal_message env m message c
      = (disconnect m c, [{ conn := c, msg := message, outcome := SendOutcome.failed }])
  ∧ hasKey c (disconnect m c).active_connections = false
  ∧ hasKey c (disconnect m c).subscriptions = false
  ∧ hasKey c (disconnect m c).background_tasks = false
  ∧ (∀ tid, dictLookup c m.background_tasks = some tid →
      tid ∈ (disconnect m c).cancelled_tasks) := by
  refine ⟨?_, ?_, ?_, ?_, ?_⟩
  · unfold send_personal_message
    rw [hreg]
    simp [hfail]
  · simp [disconnect, hasKey_dictErase]
  · simp [disconnect, hasKey_dictErase]
  · simp [disconnect, hasKey_dictErase]
  · intro tid htid
    simp [disconnect, htid]

/-- Witness for C4: session `c1` with recorded task 7, a transport that
always fails. -/
theorem C4_send_failure_teardown_witness :
    dictLookup "c1" mgrT.active_connections = some 1
  ∧ envWriteFail.write_ok 1 (PushMsg.errorReply "x") = false
  ∧ (send_personal_message envWriteFail mgrT (PushMsg.errorReply "x") "c1"
       = (disconnect mgrT "c1",
          [{ conn := "c1", msg := PushMsg.errorReply "x", outcome := SendOutcome.failed }])
     ∧ hasKey "c1" (disconnect mgrT "c1").active_connections = false
     ∧ hasKey "c1" (disconnect mgrT "c1").subscriptions = false
     ∧ hasKey "c1" (disconnect mgrT "c1").background_tasks = false
     ∧ (∀ tid, dictLookup "c1" mgrT.background_tasks = some tid →
         tid ∈ (disconnect mgrT "c1").cancelled_tasks)) :=
  ⟨by decide, rfl,
   C4_send_failure_teardown envWriteFail mgrT (PushMsg.errorReply "x") "c1" 1 (by decide) rfl⟩

/-- Claim C8: `connect` on an already registered key silently overwrites the
channel, resets the key's subscription set to empty, and leaves the
background-task map untouched — the recorded task is neither cancelled nor
removed. -/
theorem C8_connect_replaces (m : ManagerState) (socket : Nat) (c : String)
    (h : hasKey c m.active_connections = true) :
    dictLookup c (connect m socket c).active_connections = some socket
  ∧ dictLookup c (connect m socket c).subscriptions = some []
  ∧ (connect m socket c).background_tasks = m.background_tasks
  ∧ (connect m socket c).cancelled_tasks = m.cancelled_tasks := by
  refine ⟨?_, ?_, rfl, rfl⟩
  · simp [connect, dictLookup_dictSet_self]
  · simp [connect, dictLookup_dictSet_self]

/-- Witness for C8: reconnecting `c1` (which has a recorded task) on a new
socket. -/
theorem C8_connect_replaces_witness :
    hasKey "c1" mgrT.active_connections = true
  ∧ (dictLookup "c1" (connect mgrT 9 "c1").active_connections = some 9
     ∧ dictLookup "c1" (connect mgrT 9 "c1").subscriptions = some []
     ∧ (connect mgrT 9 "c1").background_tasks = mgrT.background_tasks
     ∧ (connect mgrT 9 "c1").cancelled_tasks = mgrT.cancelled_tasks) :=
  ⟨by decide, C8_connect_replaces mgrT 9 "c1" (by decide)⟩

/-- The registry invariant of claim C10: a key has a channel exactly when it
has a subscription set. -/
def registryKeysAligned (m : ManagerState) : Prop :=
  ∀ k, hasKey k m.active_connections = hasKey k m.subscriptions

/-- Claim C10: every `ConnectionManager` operation preserves the invariant
that the key set of `active_connections` equals the key set of
`subscriptions`. -/
theorem C10_registry_alignment (m : ManagerState) (h : registryKeysAligned m) :
    (∀ socket c, registryKeysAligned (connect m socket c))
  ∧ (∀ c, registryKeysAligned (disconnect m c))
  ∧ (∀ c t, registryKeysAligned (subscribe m c t))
  ∧ (∀ c t, registryKeysAligned (unsubscribe m c t))
  ∧ (∀ env message c, registryKeysAligned (send_personal_message env m message c).1) := by
  have hdisc : ∀ c, registryKeysAligned (disconnect m c) := by
    intro c k
    simp only [disconnect, hasKey_dictErase]
    by_cases hc : c = k
    · simp [hc]
    · simp [hc, h k]
  refine ⟨?_, hdisc, ?_, ?_, ?_⟩
  · intro socket c k
    simp only [connect, hasKey_dictSet]
    by_cases hc : c = k
    · simp [hc]
    · simp [hc, h k]
  · intro c t
    unfold subscribe
    by_cases hs : hasKey c m.subscriptions = true
    · rw [if_pos hs]
      intro k
      simp only [hasKey_dictModify]
      exact h k
    · rw [if_neg hs]
      exact h
  · intro c t
    unfold unsubscribe
    by_cases hs : hasKey c m.subscriptions = true
    · rw [if_pos hs]
      intro k
      simp only [hasKey_dictModify]
      exact h k
    · rw [if_neg hs]
      exact h
  · intro env message c
    have hcase : (send_personal_message env m message c).1 = m
        ∨ (send_personal_message env m message c).1 = disconnect m c := by
      unfold send_personal_message
      cases dictLookup c m.active_connections with
      | none => left; rfl
      | some sock =>
        by_cases hw : env.write_ok sock message = true
        · left; simp [hw]
        · right; simp [hw]
    rcases hcase with he | he <;> rw [he]
    · exact h
    · exact hdisc c

/-- Witness for C10 at the empty manager. -/
theorem C10_registry_alignment_witness :
    registryKeysAligned emptyManager
  ∧ ((∀ socket c, registryKeysAligned (connect emptyManager socket c))
     ∧ (∀ c, registryKeysAligned (disconnect emptyManager c))
     ∧ (∀ c t, registryKeysAligned (subscribe emptyManager c t))
     ∧ (∀ c t, registryKeysAligned (unsubscribe emptyManager c t))
     ∧ (∀ env message c,
         registryKeysAligned (send_personal_message env emptyManager message c).1)) :=
  ⟨fun _ => rfl, C10_registry_alignment emptyManager (fun _ => rfl)⟩

/-- The added topic is a member of the resulting set. -/
theorem mem_setAdd_self (t : String) (s : List String) : t ∈ setAdd t s := by
  unfold setAdd
  by_cases h : t ∈ s
  · rwa [if_pos h]
  · rw [if_neg h]; simp

/-- Adding to a duplicate-free set keeps it duplicate-free. -/
theorem nodup_setAdd (t : String) (s : List String) (h : s.Nodup) : (setAdd t s).Nodup := by
  unfold setAdd
  by_cases hm : t ∈ s
  · rwa [if_pos hm]
  · rw [if_neg hm]
    refine h.append (List.nodup_singleton t) ?_
    intro x hx hxt
    exact hm ((List.mem_singleton.mp hxt) ▸ hx)

/-- Discarding an element that is not in the set leaves the set unchanged. -/
theorem setDiscard_of_not_mem (t : String) :
    ∀ s : List String, t ∉ s → setDiscard t s = s := by
  intro s
  induction s with
  | nil => intro _; rfl
  | cons x rest ih =>
    intro h
    have hx : ¬(x = t) := fun he => h (he ▸ List.mem_cons_self x rest)
    simp [setDiscard, hx]
    exact ih (fun hm => h (List.mem_cons_of_mem x hm))

/-- Subscribing on a registered key adds the topic to the stored set. -/
theorem subsOf_subscribe (m : ManagerState) (c t : String)
    (h : hasKey c m.subscriptions = true) :
    subsOf (subscribe m c t) c = setAdd t (subsOf m c) := by
  unfold subscribe
  rw [if_pos h]
  unfold subsOf
  simp only [dictLookup_dictModify_self]
  rcases Option.isSome_iff_exists.mp h with ⟨s, hs⟩
  rw [hs]
  rfl

/-- Unsubscribing on a registered key discards the topic from the stored set. -/
theorem subsOf_unsubscribe (m : ManagerState) (c t : String)
    (h : hasKey c m.subscriptions = true) :
    subsOf (unsubscribe m c t) c = setDiscard t (subsOf m c) := by
  unfold unsubscribe
  rw [if_pos h]
  unfold subsOf
  simp only [dictLookup_dictModify_self]
  rcases Option.isSome_iff_exists.mp h with ⟨s, hs⟩
  rw [hs]
  rfl

/-- Subscribing does not change which keys are registered. -/
theorem hasKey_subscribe (m : ManagerState) (c t k : String) :
    hasKey k (subscribe m c t).subscriptions = hasKey k m.subscriptions := by
  unfold subscribe
  by_cases h : hasKey c m.subscriptions = true
  · rw [if_pos h]; simp [hasKey_dictModify]
  · rw [if_neg h]

/-- Claim C6: on a registered session, subscribing twice to a topic leaves
exactly one entry for it in the session's subscription set; unsubscribing
from a topic not in the set leaves the set unchanged; both operations are
no-ops on an unregistered key. -/
theorem C6_subscription_algebra (m : ManagerState) (c t : String)
    (hnd : (subsOf m c).Nodup) :
    (hasKey c m.subscriptions = false →
       subscribe m c t = m ∧ unsubscribe m c t = m)
  ∧ (hasKey c m.subscriptions = true →
       List.count t (subsOf (subscribe (subscribe m c t) c t) c) = 1)
  ∧ (t ∉ subsOf m c → subsOf (unsubscribe m c t) c = subsOf m c) := by
  refine ⟨?_, ?_, ?_⟩
  · intro h
    constructor
    · unfold subscribe; rw [if_neg (by simp [h])]
    · unfold unsubscribe; rw [if_neg (by simp [h])]
  · intro h
    have h2 : hasKey c (subscribe m c t).subscriptions = true := by
      rw [hasKey_subscribe]; exact h
    rw [subsOf_subscribe _ _ _ h2, subsOf_subscribe _ _ _ h]
    exact List.count_eq_one_of_mem (nodup_setAdd t _ (nodup_setAdd t _ hnd))
      (mem_setAdd_self t _)
  · intro hmem
    by_cases h : hasKey c m.subscriptions = true
    · rw [subsOf_unsubscribe _ _ _ h]
      exact setDiscard_of_not_mem t _ hmem
    · unfold unsubscribe
      rw [if_neg h]

/-- Witness for C6 on the freshly connected session `c1` and topic
`metrics`. -/
theorem C6_subscription_algebra_witness :
    (subsOf mgrW "c1").Nodup
  ∧ ((hasKey "c1" mgrW.subscriptions = false →
        subscribe mgrW "c1" "metrics" = mgrW ∧ unsubscribe mgrW "c1" "metrics" = mgrW)
     ∧ (hasKey "c1" mgrW.subscriptions = true →
        List.count "metrics"
          (subsOf (subscribe (subscribe mgrW "c1" "metrics") "c1" "metrics") "c1") = 1)
     ∧ ("metrics" ∉ subsOf mgrW "c1" →
        subsOf (unsubscribe mgrW "c1" "metrics") "c1" = subsOf mgrW "c1")) :=
  ⟨by decide, C6_subscription_algebra mgrW "c1" "metrics" (by decide)⟩

/-- Every `send_personal_message` call yields exactly one event carrying the
message it was asked to push. -/
theorem send_events_shape (env : Env) (m : ManagerState) (message : PushMsg) (c : String) :
    ∃ o, (send_personal_message env m message c).2
      = [{ conn := c, msg := message, outcome := o }] := by
  unfold send_personal_message
  cases dictLookup c m.active_connections with
  | none => exact ⟨SendOutcome.dropped, rfl⟩
  | some sock =>
    by_cases hw : env.write_ok sock message = true
    · exact ⟨SendOutcome.delivered, by simp [hw]⟩
    · exact ⟨SendOutcome.failed, by simp [hw]⟩

/-- Claim C5: a background container action pushes the `in_progress` message
first, then — whatever the collaborator does — exactly one terminal message
tagged `success` or `error`, in that order. -/
theorem C5_action_protocol (env : Env) (m : ManagerState) (conn container_id action : String) :
    ∃ st txt o1 o2,
      (st = "success" ∨ st = "error")
    ∧ (handle_container_action env m conn container_id action).2
        = [{ conn := conn,
             msg := PushMsg.container_action_result container_id action "in_progress"
                      (pyCapitalize action ++ " requested..."),
             outcome := o1 },
           { conn := conn,
             msg := PushMsg.container_action_result container_id action st txt,
             outcome := o2 }] := by
  unfold handle_container_action
  rcases send_events_shape env m
    (PushMsg.container_action_result container_id action "in_progress"
      (pyCapitalize action ++ " requested...")) conn with ⟨o1, h1⟩
  cases hx : env.exec_action container_id action with
  | ok r =>
    rcases send_events_shape env
      (send_personal_message env m
        (PushMsg.container_action_result container_id action "in_progress"
          (pyCapitalize action ++ " requested...")) conn).1
      (PushMsg.container_action_result container_id action "success" r) conn with ⟨o2, h2⟩
    exact ⟨"success", r, o1, o2, Or.inl rfl, by simp [hx, h1, h2]⟩
  | error e =>
    rcases send_events_shape env
      (send_personal_message env m
        (PushMsg.container_action_result container_id action "in_progress"
          (pyCapitalize action ++ " requested...")) conn).1
      (PushMsg.container_action_result container_id action "error" e) conn with ⟨o2, h2⟩
    exact ⟨"error", e, o1, o2, Or.inr rfl, by simp [hx, h1, h2]⟩

/-- Does this event respect the claim that kill results always report
success? -/
def killResultOk (e : SendEvent) : Bool :=
  match e.msg with
  | PushMsg.process_kill_result _ s _ => s
  | _ => true

/-- Any `ok` value of `kill_process` is `true`. -/
theorem kill_process_ok_true (o : KillOutcome) (b : Bool)
    (h : kill_process o = Except.ok b) : b = true := by
  cases o with
  | terminatedInTime => simp [kill_process] at h; exact h
  | timedOutThenKilled => simp [kill_process] at h; exact h
  | noSuchProcess => simp [kill_process] at h
  | accessDenied => simp [kill_process] at h
  | otherFailure msg => simp [kill_process] at h

/-- Claim C9: `kill_process` never returns `False` (every abnormal path
raises, the only normal return is `True`); hence every `process_kill_result`
reply the dispatcher emits carries `success = true`, and the message text of
a successful reply is always the `killed` variant, so the `failed to kill`
branch is unreachable. -/
theorem C9_kill_success_only :
    (∀ o b, kill_process o = Except.ok b → b = true)
  ∧ (∀ (env : Env) (w : World) (conn : String) (p : Option Nat),
      w.events.all killResultOk = true →
      ((stepMsg env w conn (ClientMsg.killProcess p)).events).all killResultOk = true)
  ∧ (∀ p : Option Nat, killMsgText p true = "Process " ++ pidToStr p ++ " killed") := by
  refine ⟨kill_process_ok_true, ?_, fun p => rfl⟩
  intro env w conn p hall
  unfold stepMsg
  cases hk : kill_process (env.kill_outcome p) with
  | ok s =>
    have hs : s = true := kill_process_ok_true _ _ hk
    subst hs
    rcases send_events_shape env w.mgr
      (PushMsg.process_kill_result p true (killMsgText p true)) conn with ⟨o, ho⟩
    simp [hk, emit, ho, List.all_append, hall, killResultOk]
  | error e =>
    rcases send_events_shape env w.mgr
      (PushMsg.errorReply ("Failed to kill process: " ++ e)) conn with ⟨o, ho⟩
    simp [hk, emit, ho, List.all_append, hall, killResultOk]

/-- Witness for C9: killing pid 42 in the all-ok environment from a world
with an empty event log. -/
theorem C9_kill_success_only_witness :
    (kill_process KillOutcome.terminatedInTime = Except.ok true → true = true)
  ∧ wEmpty.events.all killResultOk = true
  ∧ ((stepMsg envAllOk wEmpty "c1" (ClientMsg.killProcess (some 42))).events).all killResultOk
      = true
  ∧ killMsgText (some 42) true = "Process " ++ pidToStr (some 42) ++ " killed" :=
  ⟨fun h => C9_kill_success_only.1 KillOutcome.terminatedInTime true h,
   rfl,
   C9_kill_success_only.2.1 envAllOk wEmpty "c1" (some 42) rfl,
   C9_kill_success_only.2.2 (some 42)⟩

/-- Docker environment in which the docker binary is missing: every
subprocess invocation of docker raises `FileNotFoundError`. -/
def dockerNoBinary : DockerEnv :=
  { version_check := CmdResult.fileNotFound, ps_all := CmdResult.fileNotFound }

/-- Docker environment in which the binary exists but the daemon is not
running: `docker ps` exits non-zero with the daemon message on stderr. -/
def dockerDaemonDown : DockerEnv :=
  { version_check := CmdResult.finished 0 "Docker version 24.0" "",
    ps_all := CmdResult.finished 1 ""
      "Cannot connect to the Docker daemon at unix:///var/run/docker.sock" }

/-- Claim C7: when the container runtime is unavailable, the effective
`get_docker_containers` (the second definition, which shadows the first at
module level) raises instead of returning the empty list; only the shadowed
dead first definition fails closed to `[]` as the spec describes. -/
theorem C7_runtime_unavailable_raises :
    get_docker_containers dockerNoBinary = Except.error "Docker command not found"
  ∧ get_docker_containers dockerDaemonDown
      = Except.error
          ("Failed to get containers: Docker ps command failed: " ++
           "Cannot connect to the Docker daemon at unix:///var/run/docker.sock")
  ∧ get_docker_containers_shadowed dockerNoBinary = Except.ok []
  ∧ get_docker_containers_shadowed dockerDaemonDown = Except.ok [] :=
  ⟨rfl, rfl, rfl, rfl⟩

/-- Counterexample to claim C1: with two `container_action` requests issued
before the first task completes, the code cancels nothing (`cancelled_tasks`
stays empty) and both tasks deliver their terminal messages — two terminal
messages for the session, not one. -/
theorem C1_counterexample :
    (fullRun envAllOk w0 "c1"
      [Inbound.msg (ClientMsg.containerAction (some "abc") (some "start")),
       Inbound.msg (ClientMsg.containerAction (some "xyz") (some "start"))]).mgr.cancelled_tasks
      = []
  ∧ countTerminal "c1"
      (fullRun envAllOk w0 "c1"
        [Inbound.msg (ClientMsg.containerAction (some "abc") (some "start")),
         Inbound.msg (ClientMsg.containerAction (some "xyz") (some "start"))]).events = 2 :=
  ⟨by decide, by decide⟩

/-- Claim C1 as amended: a new background-task request — `container_action`
or `get_container_logs` alike — overwrites the session's recorded task handle
with the new task WITHOUT cancelling the superseded task (no task id is added
to the cancelled set; cancellation happens only on disconnect), so the old
task keeps running and still delivers its terminal message. -/
theorem C1_amended_supersede_no_cancel (env : Env) (w : World)
    (conn container_id action : String) (tail : Nat) (follow : Bool)
    (hc : container_id.isEmpty = false) (ha : action.isEmpty = false) :
    ((stepMsg env w conn
        (ClientMsg.containerAction (some container_id) (some action))).mgr.cancelled_tasks
      = w.mgr.cancelled_tasks
     ∧ dictLookup conn
        (stepMsg env w conn
          (ClientMsg.containerAction (some container_id) (some action))).mgr.background_tasks
        = some w.next_task
     ∧ (stepMsg env w conn
        (ClientMsg.containerAction (some container_id) (some action))).pending
        = w.pending ++ [{ id := w.next_task, conn := conn,
                          kind := TaskKind.action container_id action }]
     ∧ (stepMsg env w conn
        (ClientMsg.containerAction (some container_id) (some action))).events = w.events)
  ∧ ((stepMsg env w conn
        (ClientMsg.getContainerLogs (some container_id) tail follow)).mgr.cancelled_tasks
      = w.mgr.cancelled_tasks
     ∧ dictLookup conn
        (stepMsg env w conn
          (ClientMsg.getContainerLogs (some container_id) tail follow)).mgr.background_tasks
        = some w.next_task
     ∧ (stepMsg env w conn
        (ClientMsg.getContainerLogs (some container_id) tail follow)).pending
        = w.pending ++ [{ id := w.next_task, conn := conn,
                          kind := TaskKind.logs container_id tail follow }]
     ∧ (stepMsg env w conn
        (ClientMsg.getContainerLogs (some container_id) tail follow)).events = w.events) := by
  constructor
  · simp only [stepMsg]
    have ht : (truthy (some container_id) && truthy (some action)) = true := by
      simp [truthy, hc, ha]
    rw [if_pos ht]
    refine ⟨rfl, ?_, rfl, rfl⟩
    simp [spawnTask, dictLookup_dictSet_self]
  · simp only [stepMsg]
    have ht2 : truthy (some container_id) = true := by
      simp [truthy, hc]
    rw [if_pos ht2]
    refine ⟨rfl, ?_, rfl, rfl⟩
    simp [spawnTask, dictLookup_dictSet_self]

/-- Witness for the amended C1 on the connected session `c1`, exercising both
the `container_action` and the `get_container_logs` request. -/
theorem C1_amended_supersede_no_cancel_witness :
    ("abc" : String).isEmpty = false
  ∧ ("start" : String).isEmpty = false
  ∧ (((stepMsg envAllOk w0 "c1"
         (ClientMsg.containerAction (some "abc") (some "start"))).mgr.cancelled_tasks
        = w0.mgr.cancelled_tasks
      ∧ dictLookup "c1"
          (stepMsg envAllOk w0 "c1"
            (ClientMsg.containerAction (some "abc") (some "start"))).mgr.background_tasks
          = some w0.next_task
      ∧ (stepMsg envAllOk w0 "c1"
          (ClientMsg.containerAction (some "abc") (some "start"))).pending
          = w0.pending ++ [{ id := w0.next_task, conn := "c1",
                             kind := TaskKind.action "abc" "start" }]
      ∧ (stepMsg envAllOk w0 "c1"
          (ClientMsg.containerAction (some "abc") (some "start"))).events = w0.events)
     ∧ ((stepMsg envAllOk w0 "c1"
          (ClientMsg.getContainerLogs (some "abc") 100 false)).mgr.cancelled_tasks
        = w0.mgr.cancelled_tasks
      ∧ dictLookup "c1"
          (stepMsg envAllOk w0 "c1"
            (ClientMsg.getContainerLogs (some "abc") 100 false)).mgr.background_tasks
          = some w0.next_task
      ∧ (stepMsg envAllOk w0 "c1"
          (ClientMsg.getContainerLogs (some "abc") 100 false)).pending
          = w0.pending ++ [{ id := w0.next_task, conn := "c1",
                             kind := TaskKind.logs "abc" 100 false }]
      ∧ (stepMsg envAllOk w0 "c1"
          (ClientMsg.getContainerLogs (some "abc") 100 false)).events = w0.events)) :=
  ⟨rfl, rfl, C1_amended_supersede_no_cancel envAllOk w0 "c1" "abc" "start" 100 false rfl rfl⟩

/-- Counterexample to claim C2: after a malformed frame, no reply of any kind
was sent (no `error`-typed reply in particular), the session is no longer
registered, and the following well-formed `get_system_info` was never
processed. -/
theorem C2_counterexample :
    (runLoop envAllOk w0 "c1"
      [Inbound.malformed, Inbound.msg ClientMsg.getSystemInfo]).events = []
  ∧ hasKey "c1"
      (runLoop envAllOk w0 "c1"
        [Inbound.malformed, Inbound.msg ClientMsg.getSystemInfo]).mgr.active_connections
      = false :=
  ⟨by decide, by decide⟩

/-- Claim C2 as amended: a malformed inbound payload raises out of
`json.loads`, is caught only by the outer exception handler, which
disconnects the session and terminates the receive loop; no error reply is
sent and any subsequent frames are never processed. -/
theorem C2_amended_malformed_disconnects (env : Env) (w : World) (conn : String)
    (rest : List Inbound) :
    runLoop env w conn (Inbound.malformed :: rest)
      = { w with mgr := disconnect w.mgr conn } := by
  simp [runLoop, stepInbound]

end TARS
